import Mathlib

/-!
Shallow embedding of src/main.py of the Window_Pin repository.

The program is a tkinter utility that pins windows topmost.  The embedding
models the state the Python code mutates (the PinWindow object fields
is_pinning, pinned_windows, pushpin_root_window_handle, and each PushPinIcon
marker), the observable effects (dialog boxes, SetWindowPos calls, marker
window destruction, geometry updates, timer rescheduling) and, crucially,
Python exception flow: state mutations performed before a raise persist,
and try/except blocks catch and report.

Two call-arity facts of the source are embedded explicitly:
  * PinWindow.window_z_index is declared @staticmethod with THREE parameters
    (self, window_handle, is_topmost) at src/main.py:284-285, yet every call
    site (main.py:53, 108, 146, 166, 278) passes TWO arguments; a staticmethod
    performs no self-binding, so Python raises TypeError (missing positional
    argument is_topmost) before the body runs.  This is window_z_index_call2.
  * unpin_window calls self.remove_pin(self, window_handle) at main.py:276,
    passing three positional arguments (the bound self, self again, and the
    handle) to the two-parameter method remove_pin; Python raises TypeError
    before the method body runs.  This is remove_pin_call3.
-/

namespace WindowPin

/-- win32con.HWND_TOPMOST. -/
def HWND_TOPMOST : Int := -1

/-- win32con.HWND_NOTOPMOST. -/
def HWND_NOTOPMOST : Int := -2

/-- win32con.SWP_NOSIZE. -/
def SWP_NOSIZE : Nat := 1

/-- win32con.SWP_NOMOVE. -/
def SWP_NOMOVE : Nat := 2

/-- Python exceptions that arise in the modelled code paths. -/
inductive PyExn where
  | typeError
deriving DecidableEq, Repr

/-- Rendering of an exception used in the f-string error dialogs; the source
interpolates str(e), modelled here by the exception class name. -/
def pyExnStr : PyExn → String
  | .typeError => "TypeError"

/-- Observable effects of the program: message boxes, the one OS
window-management call (win32gui.SetWindowPos), marker-window operations and
timer rescheduling. -/
inductive Effect where
  | showWarning (msg : String)
  | showError (msg : String)
  | setWindowPos (hwnd : Int) (insertAfter : Int) (x y cx cy : Int) (flags : Nat)
  | destroyMarker (target : Int)
  | setMarkerGeometry (x y : Int)
  | scheduleAfter (ms : Nat)
deriving DecidableEq, Repr

/-- Embeds the BODY of PinWindow.window_z_index (main.py:284-298): a
SetWindowPos call with x = y = cx = cy = 0 and flags SWP_NOMOVE | SWP_NOSIZE.
The declared parameters are (self, window_handle, is_topmost); is_topmost is
passed through as the hWndInsertAfter argument of SetWindowPos. -/
def window_z_index (_self : Int) (window_handle : Int) (is_topmost : Int) : Effect :=
  Effect.setWindowPos window_handle is_topmost 0 0 0 0 (SWP_NOMOVE ||| SWP_NOSIZE)

/-- A two-argument call of the three-parameter staticmethod window_z_index.
@staticmethod suppresses instance binding, so self.window_z_index(a, b) and
PinWindow.window_z_index(a, b) both invoke the raw function with two
positional arguments; the third parameter is_topmost is unbound and Python
raises TypeError before the body executes.  Every call site in main.py
(lines 53, 108, 146, 166, 278) has this shape. -/
def window_z_index_call2 (_a _b : Int) : Except PyExn Effect :=
  Except.error PyExn.typeError

/-- A screen rectangle (left, top, right, bottom) as returned by
win32gui.GetWindowRect. -/
def Rect := Int × Int × Int × Int
deriving DecidableEq, Repr

/-- State of one PushPinIcon marker: whether its Toplevel overlay window is
still alive, and the last geometry origin applied to it. -/
structure MarkerState where
  live : Bool
  pos : Option (Int × Int)
deriving DecidableEq, Repr

/-- Embeds PushPinIcon.update_pushpin_position (main.py:43-59).
Input rect is the result of win32gui.GetWindowRect on the target: none means
the call raised (window closed or invalid), some r its return value.
Returns (new marker state, whether the next tick was scheduled, effects).
Source flow: read rect, apply geometry from its origin, then call
PinWindow.window_z_index with TWO arguments, which raises TypeError; the
surrounding except catches ANY exception and destroys the marker window,
so the after(30, ...) rescheduling line is never reached. -/
def update_pushpin_position (target : Int) (rect : Option Rect) (m : MarkerState) :
    MarkerState × Bool × List Effect :=
  match rect with
  | some (l, t, _, _) =>
    let m1 : MarkerState := { m with pos := some (l, t) }
    match window_z_index_call2 target HWND_TOPMOST with
    | Except.error _ =>
      ({ m1 with live := false }, false,
        [Effect.setMarkerGeometry l t, Effect.destroyMarker target])
    | Except.ok eff =>
      (m1, true, [Effect.setMarkerGeometry l t, eff, Effect.scheduleAfter 30])
  | none =>
    ({ m with live := false }, false, [Effect.destroyMarker target])

/-- Embeds PushPinIcon.__init__ (main.py:22-41): creates the Toplevel marker
window (live, not yet positioned) and immediately runs
update_pushpin_position once. -/
def pushpin_icon_init (target : Int) (rect : Option Rect) : MarkerState × List Effect :=
  let r := update_pushpin_position target rect { live := true, pos := none }
  (r.1, r.2.2)

/-- The mutable fields of the PinWindow object that the modelled operations
touch: is_pinning, the ordered list pinned_windows, and the insertion-ordered
dict pushpin_root_window_handle mapping a pinned handle to its PushPinIcon. -/
structure PinWindowState where
  is_pinning : Bool
  pinned_windows : List Int
  pushpin_root_window_handle : List (Int × MarkerState)
deriving DecidableEq, Repr

/-- Dict membership / lookup on the insertion-ordered association list. -/
def lookupAssoc (m : List (Int × MarkerState)) (k : Int) : Option MarkerState :=
  match m with
  | [] => none
  | (k2, v) :: rest => if k2 = k then some v else lookupAssoc rest k

/-- Python dict deletion (del d[k]). -/
def eraseAssoc (m : List (Int × MarkerState)) (k : Int) : List (Int × MarkerState) :=
  match m with
  | [] => []
  | (k2, v) :: rest => if k2 = k then rest else (k2, v) :: eraseAssoc rest k

/-- Python dict assignment (d[k] = v): replaces in place or appends. -/
def insertAssoc (m : List (Int × MarkerState)) (k : Int) (v : MarkerState) :
    List (Int × MarkerState) :=
  match m with
  | [] => [(k, v)]
  | (k2, v2) :: rest =>
    if k2 = k then (k2, v) :: rest else (k2, v2) :: insertAssoc rest k v

/-- True iff the dict holds a marker for the handle whose overlay window is
still alive. -/
def hasLiveMarker (m : List (Int × MarkerState)) (k : Int) : Bool :=
  match lookupAssoc m k with
  | some mk => mk.live
  | none => false

/-- The environment of one click while armed: the root handle resolved by
get_window_handle_root (0 when WindowFromPoint found no window), the value of
self.tk_window.winfo_id(), the title win32gui.GetWindowText returns for the
root handle, and the rectangle GetWindowRect would report for it. -/
structure ClickEnv where
  root_handle : Int
  tk_window_id : Int
  title : String
  rect : Option Rect
deriving DecidableEq, Repr

/-- Python str.strip() with no argument: remove leading and trailing
whitespace. -/
def pyStrip (s : String) : String :=
  String.mk (((s.data.dropWhile Char.isWhitespace).reverse.dropWhile Char.isWhitespace).reverse)

/-- Embeds PinWindow.is_valid_window (main.py:123-127): the title is truthy
and its strip() is truthy. -/
def is_valid_window (title : String) : Bool :=
  (title != "") && (pyStrip title != "")

/-- Embeds PinWindow.pin_window (main.py:129-156).  Flow: return if not
is_pinning; stop_pin_process (sets is_pinning to False); resolve the root
handle; if it is truthy and differs from the own-window id, then inside
try/except: if the title is valid, call window_z_index with two arguments
(raises TypeError, caught, error dialog) - the append and PushPinIcon
creation lines are therefore dead code, embedded in the unreachable ok
branch; invalid title or self/no window give warning dialogs. -/
def pin_window (st : PinWindowState) (env : ClickEnv) : PinWindowState × List Effect :=
  if !st.is_pinning then (st, [])
  else
    let st1 : PinWindowState := { st with is_pinning := false }
    if env.root_handle != 0 && env.root_handle != env.tk_window_id then
      if is_valid_window env.title then
        match window_z_index_call2 env.root_handle HWND_TOPMOST with
        | Except.error e =>
          (st1, [Effect.showError ("Failed to pin window: " ++ pyExnStr e)])
        | Except.ok eff =>
          let st2 : PinWindowState :=
            { st1 with pinned_windows := st1.pinned_windows ++ [env.root_handle] }
          let created := pushpin_icon_init env.root_handle env.rect
          let st3 : PinWindowState :=
            { st2 with pushpin_root_window_handle :=
                insertAssoc st2.pushpin_root_window_handle env.root_handle created.1 }
          (st3, eff :: created.2)
      else (st1, [Effect.showWarning "No valid window selected!"])
    else (st1, [Effect.showWarning "Please select a window other than this."])

/-- Result of a method that may raise: the state reached when control left
the method (Python mutations persist across a raise), the effects emitted,
and the escaping exception if any. -/
structure MRes where
  st : PinWindowState
  effects : List Effect
  exn : Option PyExn
deriving DecidableEq, Repr

/-- Embeds PinWindow.remove_pin (main.py:158-166), called correctly with one
argument (as cleanup does).  If the handle is in the dict: destroy its marker
window, delete the dict entry, then call self.window_z_index with two
arguments - which raises TypeError AFTER the destroy and the deletion have
taken effect; the exception escapes to the caller.  If the handle is absent,
the method does nothing. -/
def remove_pin (st : PinWindowState) (window_handle : Int) : MRes :=
  match lookupAssoc st.pushpin_root_window_handle window_handle with
  | some _ =>
    let st1 : PinWindowState :=
      { st with pushpin_root_window_handle :=
          eraseAssoc st.pushpin_root_window_handle window_handle }
    match window_z_index_call2 window_handle HWND_NOTOPMOST with
    | Except.error e => ⟨st1, [Effect.destroyMarker window_handle], some e⟩
    | Except.ok eff => ⟨st1, [Effect.destroyMarker window_handle, eff], none⟩
  | none => ⟨st, [], none⟩

/-- The call self.remove_pin(self, window_handle) at main.py:276: the bound
method receives three positional arguments (self, self, window_handle) but
remove_pin accepts two, so Python raises TypeError before the body runs and
no mutation of the dict or marker happens. -/
def remove_pin_call3 (_st : PinWindowState) (_window_handle : Int) : Except PyExn MRes :=
  Except.error PyExn.typeError

/-- Embeds PinWindow.unpin_window (main.py:268-282).  If pinned_windows is
non-empty: pop its last element (the mutation persists), then inside
try/except call self.remove_pin(self, handle) - three positional arguments,
TypeError, caught, error dialog; the two-argument window_z_index line after
it is dead code, embedded in the unreachable ok branch.  If the list is
empty: warning dialog only. -/
def unpin_window (st : PinWindowState) : PinWindowState × List Effect :=
  match st.pinned_windows.getLast? with
  | some window_handle =>
    let st1 : PinWindowState := { st with pinned_windows := st.pinned_windows.dropLast }
    match remove_pin_call3 st1 window_handle with
    | Except.error e =>
      (st1, [Effect.showError ("Failed to unpin window: " ++ pyExnStr e)])
    | Except.ok r =>
      match window_z_index_call2 window_handle HWND_NOTOPMOST with
      | Except.error e =>
        (r.st, r.effects ++ [Effect.showError ("Failed to unpin window: " ++ pyExnStr e)])
      | Except.ok eff => (r.st, r.effects ++ [eff])
  | none => (st, [Effect.showWarning "No windows are pinned!"])

/-- One iteration of the cleanup loop body (main.py:105-110): try remove_pin
then a two-argument window_z_index call, catching any exception into an
error dialog.  State mutations made before the raise persist. -/
def cleanup_step (acc : PinWindowState × List Effect) (window_handle : Int) :
    PinWindowState × List Effect :=
  let r := remove_pin acc.1 window_handle
  match r.exn with
  | some e =>
    (r.st, acc.2 ++ r.effects ++
      [Effect.showError ("Failed to cleanup window: " ++ pyExnStr e)])
  | none =>
    match window_z_index_call2 window_handle HWND_NOTOPMOST with
    | Except.error e =>
      (r.st, acc.2 ++ r.effects ++
        [Effect.showError ("Failed to cleanup window: " ++ pyExnStr e)])
    | Except.ok eff => (r.st, acc.2 ++ r.effects ++ [eff])

/-- Embeds PinWindow.cleanup (main.py:99-110): iterate over pinned_windows
(which no loop body modifies - remove_pin touches only the dict) applying
cleanup_step to each handle.  The list itself is never cleared. -/
def cleanup (st : PinWindowState) : PinWindowState × List Effect :=
  st.pinned_windows.foldl cleanup_step (st, [])

/-- A timer tick of the marker bound to handle k, with the given GetWindowRect
outcome for its target; only a live marker still has a pending tick. -/
def tickAssoc (m : List (Int × MarkerState)) (k : Int) (rect : Option Rect) :
    List (Int × MarkerState) :=
  m.map fun p =>
    if p.1 = k && p.2.live then (p.1, (update_pushpin_position k rect p.2).1) else p

/-- UI-thread events that touch the PinWindow state: the pin-mode toggle
button, an armed-or-not click forwarded by the mouse hook, the unpin button,
a marker timer tick, and the atexit cleanup. -/
inductive Ev where
  | toggle
  | click (env : ClickEnv)
  | unpin
  | tick (k : Int) (rect : Option Rect)
  | doCleanup

/-- State transition of one event.  toggle embeds toggle_pin_process
(main.py:258-266), which only flips is_pinning as far as the modelled state
is concerned (hook and button label are external). -/
def stepState (st : PinWindowState) : Ev → PinWindowState
  | Ev.toggle =>
    if st.is_pinning then { st with is_pinning := false }
    else { st with is_pinning := true }
  | Ev.click env => (pin_window st env).1
  | Ev.unpin => (unpin_window st).1
  | Ev.tick k rect =>
    { st with pushpin_root_window_handle :=
        tickAssoc st.pushpin_root_window_handle k rect }
  | Ev.doCleanup => (cleanup st).1

/-- The state PinWindow.__init__ (main.py:76-97) sets up: not pinning, empty
list, empty dict. -/
def initState : PinWindowState :=
  { is_pinning := false, pinned_windows := [], pushpin_root_window_handle := [] }

/-- States reachable from the initial state under any event sequence. -/
inductive Reachable : PinWindowState → Prop where
  | init : Reachable initState
  | step (s : PinWindowState) (e : Ev) : Reachable s → Reachable (stepState s e)

end WindowPin

namespace WindowPin

/-- Classifier for warning dialog effects. -/
def isWarningEffect : Effect → Bool
  | Effect.showWarning _ => true
  | _ => false

/-- The modelled OS state of one target window: its screen origin and size
and whether it sits in the topmost z-order band. -/
structure OSWindow where
  posX : Int
  posY : Int
  width : Int
  height : Int
  topmost : Bool
deriving DecidableEq, Repr

/-- Modelled Win32 semantics of SetWindowPos restricted to what this program
passes: SWP_NOMOVE suppresses the x/y arguments, SWP_NOSIZE suppresses the
cx/cy arguments, and the hWndInsertAfter argument HWND_TOPMOST or
HWND_NOTOPMOST selects the z-order band. -/
def applySetWindowPos (w : OSWindow) (insertAfter x y cx cy : Int) (flags : Nat) :
    OSWindow :=
  { posX := if flags &&& SWP_NOMOVE != 0 then w.posX else x
    posY := if flags &&& SWP_NOMOVE != 0 then w.posY else y
    width := if flags &&& SWP_NOSIZE != 0 then w.width else cx
    height := if flags &&& SWP_NOSIZE != 0 then w.height else cy
    topmost :=
      if insertAfter = HWND_TOPMOST then true
      else if insertAfter = HWND_NOTOPMOST then false
      else w.topmost }

/-- Applying an effect to a target window state: only a SetWindowPos call on
it changes it. -/
def applyEffect (w : OSWindow) : Effect → OSWindow
  | Effect.setWindowPos _ insertAfter x y cx cy flags =>
    applySetWindowPos w insertAfter x y cx cy flags
  | _ => w

theorem pin_window_registry (st : PinWindowState) (env : ClickEnv) :
    (pin_window st env).1.pinned_windows = st.pinned_windows ∧
      (pin_window st env).1.pushpin_root_window_handle = st.pushpin_root_window_handle := by
  cases hp : st.is_pinning <;>
    simp only [pin_window, hp, window_z_index_call2] <;>
    split_ifs <;> simp

theorem reachable_registry_empty (s : PinWindowState) (h : Reachable s) :
    s.pinned_windows = [] ∧ s.pushpin_root_window_handle = [] := by
  induction h with
  | init => exact ⟨rfl, rfl⟩
  | step s e _ ih =>
    obtain ⟨h1, h2⟩ := ih
    cases e with
    | toggle =>
      constructor <;> simp only [stepState] <;> split <;> simp [h1, h2]
    | click env =>
      obtain ⟨p1, p2⟩ := pin_window_registry s env
      exact ⟨by simpa [stepState, h1] using p1, by simpa [stepState, h2] using p2⟩
    | unpin => simp [stepState, unpin_window, h1, h2]
    | tick k rect => simp [stepState, tickAssoc, h1, h2]
    | doCleanup => simp [stepState, cleanup, h1, h2]

theorem unpin_pop (st : PinWindowState) (l : List Int) (k : Int)
    (hc : st.pinned_windows = l ++ [k]) :
    (unpin_window st).1.pinned_windows = l := by
  simp [unpin_window, hc, remove_pin_call3, List.getLast?_concat, List.dropLast_concat]

end WindowPin

namespace WindowPin

/-- Claim C1: every call site of PinWindow.window_z_index passes two
arguments to the three-parameter staticmethod, so the call raises TypeError;
consequently no pin attempt ever changes pinned_windows or
pushpin_root_window_handle, and an armed click that resolves to a truthy,
non-self handle with a valid title is caught by the except block and produces
exactly the failure error dialog. -/
theorem claim_c1_pin_always_fails (st : PinWindowState) (env : ClickEnv) :
    window_z_index_call2 env.root_handle HWND_TOPMOST = Except.error PyExn.typeError ∧
    (pin_window st env).1.pinned_windows = st.pinned_windows ∧
    (pin_window st env).1.pushpin_root_window_handle = st.pushpin_root_window_handle ∧
    (st.is_pinning = true →
      (env.root_handle != 0 && env.root_handle != env.tk_window_id) = true →
      is_valid_window env.title = true →
      (pin_window st env).2 = [Effect.showError "Failed to pin window: TypeError"]) := by
  refine ⟨rfl, (pin_window_registry st env).1, (pin_window_registry st env).2, ?_⟩
  intro hp hc hv
  simp [pin_window, hp, hc, hv, window_z_index_call2, pyExnStr]

/-- Witness for C1 at a concrete armed click on a valid foreign window. -/
theorem claim_c1_pin_always_fails_witness :
    (pin_window ⟨true, [], []⟩ ⟨5, 9, "Notepad", none⟩).1.pinned_windows = [] ∧
    (pin_window ⟨true, [], []⟩ ⟨5, 9, "Notepad", none⟩).2 =
      [Effect.showError "Failed to pin window: TypeError"] :=
  ⟨(claim_c1_pin_always_fails ⟨true, [], []⟩ ⟨5, 9, "Notepad", none⟩).2.1,
    (claim_c1_pin_always_fails ⟨true, [], []⟩ ⟨5, 9, "Notepad", none⟩).2.2.2
      rfl (by decide) (by decide)⟩

/-- Claim C2: over every sequence of pin and unpin operations the registry
never holds two entries with the same handle - in every reachable state the
list pinned_windows has no duplicates (in this code a pin attempt never
inserts, so in particular a click on an already pinned handle cannot
double-enter the registry). -/
theorem claim_c2_registry_nodup (s : PinWindowState) (h : Reachable s) :
    s.pinned_windows.Nodup := by
  rw [(reachable_registry_empty s h).1]
  exact List.nodup_nil

/-- Witness for C2 at a concrete reachable state: arm pin mode, then click a
valid foreign window. -/
theorem claim_c2_registry_nodup_witness :
    (stepState (stepState initState Ev.toggle)
      (Ev.click ⟨5, 9, "Notepad", none⟩)).pinned_windows.Nodup :=
  claim_c2_registry_nodup _
    (Reachable.step _ _ (Reachable.step _ _ Reachable.init))

/-- Claim C3: in every reachable state a handle is in pinned_windows exactly
when pushpin_root_window_handle holds a live marker for it. -/
theorem claim_c3_registry_marker_consistent (s : PinWindowState) (h : Reachable s)
    (k : Int) :
    k ∈ s.pinned_windows ↔ hasLiveMarker s.pushpin_root_window_handle k = true := by
  obtain ⟨h1, h2⟩ := reachable_registry_empty s h
  rw [h1, h2]
  simp [hasLiveMarker, lookupAssoc]

/-- Witness for C3 at the initial state and handle 7. -/
theorem claim_c3_registry_marker_consistent_witness :
    7 ∈ initState.pinned_windows ↔
      hasLiveMarker initState.pushpin_root_window_handle 7 = true :=
  claim_c3_registry_marker_consistent initState Reachable.init 7

/-- Claim C4: on any registry listing k as its most recently appended entry,
unpin removes exactly k (pop of the last list element), and an interleaved
failed pin attempt does not change which entry is removed. -/
theorem claim_c4_unpin_lifo (st : PinWindowState) (env : ClickEnv)
    (l : List Int) (k : Int) (hc : st.pinned_windows = l ++ [k]) :
    (unpin_window st).1.pinned_windows = l ∧
    (unpin_window (pin_window st env).1).1.pinned_windows = l := by
  refine ⟨unpin_pop st l k hc, unpin_pop (pin_window st env).1 l k ?_⟩
  rw [(pin_window_registry st env).1, hc]

/-- Witness for C4: registry [3, 8], an interleaved failed pin of a valid
window; unpin removes 8 either way. -/
theorem claim_c4_unpin_lifo_witness :
    (unpin_window ⟨false, [3, 8], []⟩).1.pinned_windows = [3] ∧
    (unpin_window (pin_window ⟨true, [3, 8], []⟩ ⟨5, 9, "Notepad", none⟩).1).1.pinned_windows = [3] :=
  ⟨(claim_c4_unpin_lifo ⟨false, [3, 8], []⟩ ⟨5, 9, "Notepad", none⟩ [3] 8 rfl).1,
    (claim_c4_unpin_lifo ⟨true, [3, 8], []⟩ ⟨5, 9, "Notepad", none⟩ [3] 8 rfl).2⟩

/-- Claim C5 evaluated at its failing input: with handle 7 pinned and holding
a live marker, unpin pops 7 from the list but the call
self.remove_pin(self, 7) raises TypeError (three positional arguments to the
two-parameter method), which is caught into an error dialog; contrary to the
claim the marker is NOT destroyed and the entry does NOT leave the
handle-to-marker mapping. -/
theorem claim_c5_unpin_leaves_marker :
    unpin_window ⟨false, [7], [(7, ⟨true, none⟩)]⟩ =
      (⟨false, [], [(7, ⟨true, none⟩)]⟩,
        [Effect.showError "Failed to unpin window: TypeError"]) := by
  decide

/-- Claim C6 evaluated at its failing input: cleanup over registry [5, 9]
with markers for both.  Each iteration destroys the marker and deletes the
dict entry inside remove_pin, then the two-argument window_z_index call
raises TypeError, caught into an error dialog; the loop is exception
tolerant (entry 9 is still processed after entry 5 fails), but contrary to
the claim no SetWindowPos call is ever made (no window is restored to
non-topmost) and pinned_windows is never emptied. -/
theorem claim_c6_cleanup_no_restore :
    cleanup ⟨false, [5, 9], [(5, ⟨true, none⟩), (9, ⟨true, none⟩)]⟩ =
      (⟨false, [5, 9], []⟩,
        [Effect.destroyMarker 5,
         Effect.showError "Failed to cleanup window: TypeError",
         Effect.destroyMarker 9,
         Effect.showError "Failed to cleanup window: TypeError"]) := by
  decide

/-- Claim C7: an armed click whose resolved root handle is falsy (no window),
or equals the own-window id, or whose title is empty or whitespace only,
leaves pinned_windows and pushpin_root_window_handle unchanged, drops back to
idle (is_pinning false), and emits exactly one warning dialog. -/
theorem claim_c7_invalid_click_aborts (st : PinWindowState) (env : ClickEnv)
    (hp : st.is_pinning = true)
    (hbad : env.root_handle = 0 ∨ env.root_handle = env.tk_window_id ∨
      is_valid_window env.title = false) :
    (pin_window st env).1.pinned_windows = st.pinned_windows ∧
    (pin_window st env).1.pushpin_root_window_handle = st.pushpin_root_window_handle ∧
    (pin_window st env).1.is_pinning = false ∧
    (pin_window st env).2.length = 1 ∧
    (pin_window st env).2.all isWarningEffect = true := by
  refine ⟨(pin_window_registry st env).1, (pin_window_registry st env).2, ?_⟩
  rcases hbad with h0 | hself | htitle
  · simp [pin_window, hp, h0, isWarningEffect]
  · simp [pin_window, hp, hself, isWarningEffect]
  · by_cases hc : (env.root_handle != 0 && env.root_handle != env.tk_window_id) = true
    · simp [pin_window, hp, hc, htitle, isWarningEffect]
    · simp [pin_window, hp, hc, isWarningEffect]

/-- Witness for C7: armed click resolving to no window while one foreign
handle is pinned. -/
theorem claim_c7_invalid_click_aborts_witness :
    (pin_window ⟨true, [2], [(2, ⟨true, none⟩)]⟩ ⟨0, 9, "x", none⟩).1.pinned_windows = [2] ∧
    (pin_window ⟨true, [2], [(2, ⟨true, none⟩)]⟩ ⟨0, 9, "x", none⟩).1.pushpin_root_window_handle =
      [(2, ⟨true, none⟩)] ∧
    (pin_window ⟨true, [2], [(2, ⟨true, none⟩)]⟩ ⟨0, 9, "x", none⟩).1.is_pinning = false ∧
    (pin_window ⟨true, [2], [(2, ⟨true, none⟩)]⟩ ⟨0, 9, "x", none⟩).2.length = 1 ∧
    (pin_window ⟨true, [2], [(2, ⟨true, none⟩)]⟩ ⟨0, 9, "x", none⟩).2.all isWarningEffect = true :=
  claim_c7_invalid_click_aborts ⟨true, [2], [(2, ⟨true, none⟩)]⟩ ⟨0, 9, "x", none⟩
    rfl (Or.inl rfl)

/-- Claim C8: unpin on an empty registry returns the state unchanged with
exactly one warning dialog - no exception escapes, no SetWindowPos or other
OS effect is emitted, and is_pinning, the list and the mapping are intact. -/
theorem claim_c8_unpin_empty_warns (st : PinWindowState)
    (h : st.pinned_windows = []) :
    unpin_window st = (st, [Effect.showWarning "No windows are pinned!"]) := by
  simp [unpin_window, h]

/-- Witness for C8 at a concrete state (with a leftover mapping entry to show
it also stays intact). -/
theorem claim_c8_unpin_empty_warns_witness :
    unpin_window ⟨false, [], [(4, ⟨false, none⟩)]⟩ =
      (⟨false, [], [(4, ⟨false, none⟩)]⟩,
        [Effect.showWarning "No windows are pinned!"]) :=
  claim_c8_unpin_empty_warns ⟨false, [], [(4, ⟨false, none⟩)]⟩ rfl

/-- Claim C9 evaluated at its failing input: a tick of a live marker for
target 7 whose rectangle IS readable (origin (10, 20)).  The code applies the
geometry, then the two-argument window_z_index call raises TypeError, the
catch-all except destroys the marker window, and the after(30, ...)
rescheduling line is never reached - contrary to the claim, the marker dies
and the timer stops even though the rectangle could be read. -/
theorem claim_c9_marker_dies_on_readable_rect :
    update_pushpin_position 7 (some (((10 : Int), (20 : Int), (110 : Int), (120 : Int)) : Rect))
        ⟨true, none⟩ =
      (⟨false, some (10, 20)⟩, false,
        [Effect.setMarkerGeometry 10 20, Effect.destroyMarker 7]) := by
  decide

/-- Claim C10: the SetWindowPos call issued by the body of window_z_index
carries SWP_NOMOVE and SWP_NOSIZE, so under the modelled Win32 semantics it
preserves the target window's position and size for every handle and flag,
changing only the z-order band selected by the hWndInsertAfter argument. -/
theorem claim_c10_zindex_preserves_geometry (w : OSWindow) (s k f : Int) :
    applyEffect w (window_z_index s k f) =
      { w with topmost :=
          if f = HWND_TOPMOST then true
          else if f = HWND_NOTOPMOST then false
          else w.topmost } :=
  rfl

end WindowPin
